import Mathlib

/-!
Verification of the mprisqueeze repository: a bridge between the LMS
(Logitech Media Server) JSON control API and the MPRIS desktop media
interface.  This file gives a shallow embedding, in Lean, of the parts of
the source that the specification claims talk about:

- src/discover.rs : the UDP discovery reply parser (nom combinators over a
  byte buffer) and the discover retry loop;
- src/lms/mod.rs : the typed control client, its JSON value extractors and
  the error channel wiring;
- src/lms/request.rs : the request builders;
- src/mpris.rs : the mode-polling loop that emits change notifications.

Byte buffers are modelled as lists of natural numbers (one per byte); Rust
strings produced by String::from_utf8 are modelled as their UTF-8 byte
lists guarded by a UTF-8 validity check; JSON values are modelled as an
inductive tree mirroring serde_json::Value; fallible Rust functions
returning Result are modelled with Option or Except.
-/

/-- A byte buffer: one natural number per byte. -/
abbrev Bytes := List Nat

/-! ## UTF-8 validity, modelling String::from_utf8 from the Rust standard
library: the standard UTF-8 well-formedness table (RFC 3629). -/

/-- Expected continuation byte ranges that a UTF-8 lead byte opens,
following the RFC 3629 table used by Rust's String::from_utf8; none for an
invalid lead byte. -/
def utf8Lead (b : Nat) : Option (List (Nat × Nat)) :=
  if b < 0x80 then some []
  else if 0xC2 ≤ b && b ≤ 0xDF then some [(0x80, 0xBF)]
  else if b = 0xE0 then some [(0xA0, 0xBF), (0x80, 0xBF)]
  else if (0xE1 ≤ b && b ≤ 0xEC) || b = 0xEE || b = 0xEF then
    some [(0x80, 0xBF), (0x80, 0xBF)]
  else if b = 0xED then some [(0x80, 0x9F), (0x80, 0xBF)]
  else if b = 0xF0 then some [(0x90, 0xBF), (0x80, 0xBF), (0x80, 0xBF)]
  else if 0xF1 ≤ b && b ≤ 0xF3 then some [(0x80, 0xBF), (0x80, 0xBF), (0x80, 0xBF)]
  else if b = 0xF4 then some [(0x80, 0x8F), (0x80, 0xBF), (0x80, 0xBF)]
  else none

/-- UTF-8 validity as a byte-at-a-time automaton: the first argument holds
the bounds each pending continuation byte must satisfy. -/
def utf8ValidFrom : List (Nat × Nat) → Bytes → Bool
  | [], [] => true
  | _ :: _, [] => false
  | [], b :: rest =>
    match utf8Lead b with
    | none => false
    | some pend => utf8ValidFrom pend rest
  | (lo, hi) :: pend, b :: rest =>
    if lo ≤ b && b ≤ hi then utf8ValidFrom pend rest else false

/-- UTF-8 validity of a byte list, modelling the success condition of
Rust's String::from_utf8. -/
def utf8Valid (l : Bytes) : Bool := utf8ValidFrom [] l

/-- Any list of plain ASCII bytes is valid UTF-8. -/
theorem utf8Valid_of_ascii : ∀ l : Bytes, (∀ b ∈ l, b < 128) → utf8Valid l = true := by
  intro l
  induction l with
  | nil => intro _; rfl
  | cons b rest ih =>
    intro h
    have hb : b < 128 := h b (List.mem_cons_self b rest)
    have hrest : ∀ x ∈ rest, x < 128 := fun x hx => h x (List.mem_cons_of_mem b hx)
    have hlead : utf8Lead b = some [] := by simp [utf8Lead, hb]
    simp only [utf8Valid, utf8ValidFrom, hlead]
    exact ih hrest

/-! ## The nom combinators used in src/discover.rs, modelled over byte
lists.  A nom parser consumes a prefix of the input and on success returns
the remaining input together with the parsed value; failure is none. -/

/-- Embedding of the nom tag combinator: match a literal byte sequence at
the front of the input and return the rest. -/
def nomTag : Bytes → Bytes → Option Bytes
  | [], input => some input
  | _ :: _, [] => none
  | t :: ts, b :: bs => if t = b then nomTag ts bs else none

/-- Embedding of nom's be_u8: read one byte. -/
def beU8 : Bytes → Option (Nat × Bytes)
  | [] => none
  | b :: rest => some (b, rest)

/-- Embedding of nom's take: read exactly n bytes, failing when fewer
remain. -/
def nomTake (n : Nat) (input : Bytes) : Option (Bytes × Bytes) :=
  if n ≤ input.length then some (input.take n, input.drop n) else none

/-- Embedding of String::from_utf8 on the value bytes: succeed exactly on
valid UTF-8, the string being represented by its byte list. -/
def fromUtf8 (bs : Bytes) : Option Bytes :=
  if utf8Valid bs then some bs else none

/-- Embedding of parse_tag from src/discover.rs: match the ASCII tag
literal, read one length byte, take that many bytes and require them to be
valid UTF-8.  On success return the remaining input and the value. -/
def parse_tag (startTag : Bytes) (input : Bytes) : Option (Bytes × Bytes) :=
  match nomTag startTag input with
  | none => none
  | some r1 =>
    match beU8 r1 with
    | none => none
    | some (n, r2) =>
      match nomTake n r2 with
      | none => none
      | some (value, rest) =>
        match fromUtf8 value with
        | none => none
        | some s => some (rest, s)

/-- ASCII bytes of the hostname tag ENAME. -/
def tagENAME : Bytes := [69, 78, 65, 77, 69]

/-- ASCII bytes of the port tag JSON. -/
def tagJSON : Bytes := [74, 83, 79, 78]

/-- ASCII bytes of the instance id tag UUID. -/
def tagUUID : Bytes := [85, 85, 73, 68]

/-- ASCII bytes of the version tag VERS. -/
def tagVERS : Bytes := [86, 69, 82, 83]

/-! ## Decimal parsing, modelling str::parse for unsigned integers: an
optional leading plus sign, then at least one ASCII digit, with an
overflow check against the type's maximum. -/

/-- Strip one leading plus sign, as Rust's unsigned FromStr does. -/
def stripPlus (s : Bytes) : Bytes :=
  if s.headD 0 = 43 then s.tail else s

/-- An ASCII decimal digit byte. -/
def isDigitByte (b : Nat) : Bool := 48 ≤ b && b ≤ 57

/-- Embedding of str::parse for an unsigned integer type with maximum
value bound: optional plus sign, then one or more ASCII digits, failing on
empty input, on any non-digit, and on overflow. -/
def parseDecU (bound : Nat) (s : Bytes) : Option Nat :=
  let ds := stripPlus s
  if ds = [] then none
  else if ds.all isDigitByte then
    let v := ds.foldl (fun a b => a * 10 + (b - 48)) 0
    if v ≤ bound then some v else none
  else none

/-- Embedding of s.parse with target u16, as used by parse_port. -/
def parseU16 (s : Bytes) : Option Nat := parseDecU 65535 s

/-- Embedding of the Reply struct of src/discover.rs, strings represented
by their UTF-8 byte lists. -/
structure Reply where
  hostname : Bytes
  port : Nat
  uuid : Bytes
  version : Bytes
deriving Repr, DecidableEq

/-- Embedding of parse_hostname: the ENAME field. -/
def parse_hostname (input : Bytes) : Option (Bytes × Bytes) :=
  parse_tag tagENAME input

/-- Embedding of parse_port: the JSON field, whose text must parse as a
u16 (nom's map_res over parse_tag). -/
def parse_port (input : Bytes) : Option (Bytes × Nat) :=
  match parse_tag tagJSON input with
  | none => none
  | some (rest, s) =>
    match parseU16 s with
    | none => none
    | some p => some (rest, p)

/-- Embedding of parse_uuid: the UUID field. -/
def parse_uuid (input : Bytes) : Option (Bytes × Bytes) :=
  parse_tag tagUUID input

/-- Embedding of parse_version: the VERS field. -/
def parse_version (input : Bytes) : Option (Bytes × Bytes) :=
  parse_tag tagVERS input

/-- Embedding of parse_reply from src/discover.rs: the four fields in
order, the remaining input kept (nom performs no trailing-data check). -/
def parse_reply (input : Bytes) : Option (Bytes × Reply) :=
  match parse_hostname input with
  | none => none
  | some (r1, h) =>
    match parse_port r1 with
    | none => none
    | some (r2, p) =>
      match parse_uuid r2 with
      | none => none
      | some (r3, u) =>
        match parse_version r3 with
        | none => none
        | some (r4, v) => some (r4, { hostname := h, port := p, uuid := u, version := v })

/-! ## Building reply buffers, for the round-trip property. -/

/-- One wire field: the ASCII tag, one length byte, then the value
bytes. -/
def buildField (t : Bytes) (value : Bytes) : Bytes :=
  t ++ value.length :: value

/-- Decimal digit bytes of a natural number, most significant first, via
an explicit fuel argument so that the definition computes by kernel
reduction. -/
def natToDecAux : Nat → Nat → Bytes
  | 0, _ => []
  | fuel + 1, n =>
    if n < 10 then [48 + n] else natToDecAux fuel (n / 10) ++ [48 + n % 10]

/-- Decimal digit bytes of a natural number, most significant first: the
UTF-8 bytes of Rust's to_string on an unsigned integer. -/
def natToDecBytes (n : Nat) : Bytes := natToDecAux (n + 1) n

/-- A full wire reply buffer: ENAME, JSON, UUID and VERS fields in order,
the port rendered in decimal. -/
def buildReply (h : Bytes) (p : Nat) (u v : Bytes) : Bytes :=
  buildField tagENAME h ++ buildField tagJSON (natToDecBytes p) ++
    buildField tagUUID u ++ buildField tagVERS v

/-! ## Support lemmas about the nom combinator embeddings. -/

/-- Matching a tag against itself followed by anything consumes exactly
the tag. -/
theorem nomTag_self_append : ∀ (t rest : Bytes), nomTag t (t ++ rest) = some rest := by
  intro t
  induction t with
  | nil => intro rest; rfl
  | cons a ts ih => intro rest; simp [nomTag, ih]

/-- The tag combinator fails exactly when the literal is not a prefix of
the input. -/
theorem nomTag_eq_none_iff :
    ∀ (t input : Bytes), nomTag t input = none ↔ t.isPrefixOf input = false := by
  intro t
  induction t with
  | nil => intro input; simp [nomTag, List.isPrefixOf]
  | cons a ts ih =>
    intro input
    cases input with
    | nil => simp [nomTag, List.isPrefixOf]
    | cons b bs =>
      by_cases hab : a = b
      · subst hab
        simp [nomTag, List.isPrefixOf, ih]
      · simp [nomTag, List.isPrefixOf, hab]

/-- Success of the tag combinator is stable under appending input, the
extra bytes landing in the remainder. -/
theorem nomTag_append_stable :
    ∀ (t input r extra : Bytes), nomTag t input = some r →
      nomTag t (input ++ extra) = some (r ++ extra) := by
  intro t
  induction t with
  | nil =>
    intro input r extra h
    simp only [nomTag] at h
    cases h
    rfl
  | cons a ts ih =>
    intro input r extra h
    cases input with
    | nil => simp [nomTag] at h
    | cons b bs =>
      simp only [nomTag] at h ⊢
      by_cases hab : a = b
      · simp only [if_pos hab] at h ⊢
        exact ih bs r extra h
      · simp [if_neg hab] at h

/-- Reading one byte is stable under appending input. -/
theorem beU8_append_stable :
    ∀ (input : Bytes) (n : Nat) (r extra : Bytes), beU8 input = some (n, r) →
      beU8 (input ++ extra) = some (n, r ++ extra) := by
  intro input n r extra h
  cases input with
  | nil => simp [beU8] at h
  | cons b bs =>
    simp only [beU8, Option.some.injEq, Prod.mk.injEq] at h
    obtain ⟨hb, hr⟩ := h
    subst hb; subst hr
    rfl

/-- Taking n bytes is stable under appending input. -/
theorem nomTake_append_stable :
    ∀ (n : Nat) (input v r extra : Bytes), nomTake n input = some (v, r) →
      nomTake n (input ++ extra) = some (v, r ++ extra) := by
  intro n input v r extra h
  simp only [nomTake] at h
  by_cases hn : n ≤ input.length
  · simp only [if_pos hn, Option.some.injEq, Prod.mk.injEq] at h
    obtain ⟨hv, hr⟩ := h
    have hn' : n ≤ (input ++ extra).length := by
      simp [List.length_append]; omega
    simp only [nomTake, if_pos hn', Option.some.injEq, Prod.mk.injEq]
    constructor
    · rw [List.take_append_of_le_length hn, hv]
    · rw [List.drop_append_of_le_length hn, hr]
  · simp [if_neg hn] at h

/-- Parsing one tagged field is stable under appending input. -/
theorem parse_tag_append_stable :
    ∀ (t input r v extra : Bytes), parse_tag t input = some (r, v) →
      parse_tag t (input ++ extra) = some (r ++ extra, v) := by
  intro t input r v extra h
  cases h1 : nomTag t input with
  | none => simp [parse_tag, h1] at h
  | some r1 =>
    cases h2 : beU8 r1 with
    | none => simp [parse_tag, h1, h2] at h
    | some nr2 =>
      obtain ⟨n, r2⟩ := nr2
      cases h3 : nomTake n r2 with
      | none => simp [parse_tag, h1, h2, h3] at h
      | some vr =>
        obtain ⟨value, rest⟩ := vr
        cases h4 : fromUtf8 value with
        | none => simp [parse_tag, h1, h2, h3, h4] at h
        | some s =>
          simp only [parse_tag, h1, h2, h3, h4, Option.some.injEq, Prod.mk.injEq] at h
          obtain ⟨hrest, hs⟩ := h
          subst hrest; subst hs
          simp only [parse_tag, nomTag_append_stable t input r1 extra h1,
            beU8_append_stable r1 n r2 extra h2,
            nomTake_append_stable n r2 value rest extra h3, h4]

/-- Parsing one tagged field of a built buffer recovers the value bytes
and leaves the rest untouched, given the value is valid UTF-8. -/
theorem parse_tag_build (t value rest : Bytes) (hv : utf8Valid value = true) :
    parse_tag t (buildField t value ++ rest) = some (rest, value) := by
  have h1 : nomTag t (buildField t value ++ rest) = some (value.length :: (value ++ rest)) := by
    have : buildField t value ++ rest = t ++ (value.length :: (value ++ rest)) := by
      simp [buildField]
    rw [this, nomTag_self_append]
  have h3 : nomTake value.length (value ++ rest) = some (value, rest) := by
    simp only [nomTake, if_pos (by simp [List.length_append] : value.length ≤ (value ++ rest).length)]
    rw [List.take_left, List.drop_left]
  simp only [parse_tag, h1, beU8, h3, fromUtf8, if_pos hv]

/-- All bytes produced by the fuelled decimal rendering are ASCII
digits. -/
theorem natToDecAux_digits :
    ∀ (fuel n : Nat), n < fuel → ∀ b ∈ natToDecAux fuel n, 48 ≤ b ∧ b ≤ 57 := by
  intro fuel
  induction fuel with
  | zero => intro n h; omega
  | succ f ih =>
    intro n _ b hb
    by_cases hn : n < 10
    · simp only [natToDecAux, if_pos hn, List.mem_singleton] at hb
      omega
    · simp only [natToDecAux, if_neg hn, List.mem_append, List.mem_singleton] at hb
      rcases hb with hb | hb
      · have hlt : n / 10 < f := by
          have h1 : n / 10 < n := Nat.div_lt_self (by omega) (by omega)
          omega
        exact ih (n / 10) hlt b hb
      · have := Nat.mod_lt n (show 0 < 10 by omega)
        omega

/-- The fuelled decimal rendering is never empty. -/
theorem natToDecAux_ne_nil (fuel n : Nat) (h : n < fuel) : natToDecAux fuel n ≠ [] := by
  cases fuel with
  | zero => omega
  | succ f =>
    by_cases hn : n < 10
    · simp [natToDecAux, if_pos hn]
    · simp [natToDecAux, if_neg hn]

/-- Folding the decimal digits back into a number recovers the number. -/
theorem natToDecAux_foldl :
    ∀ (fuel n : Nat), n < fuel →
      (natToDecAux fuel n).foldl (fun a b => a * 10 + (b - 48)) 0 = n := by
  intro fuel
  induction fuel with
  | zero => intro n h; omega
  | succ f ih =>
    intro n hn
    by_cases h10 : n < 10
    · simp only [natToDecAux, if_pos h10, List.foldl_cons, List.foldl_nil]
      omega
    · have hlt : n / 10 < f := by
        have h1 : n / 10 < n := Nat.div_lt_self (by omega) (by omega)
        omega
      simp only [natToDecAux, if_neg h10, List.foldl_append, ih (n / 10) hlt,
        List.foldl_cons, List.foldl_nil]
      have hm : 48 + n % 10 - 48 = n % 10 := by omega
      rw [hm]
      omega

/-- Parsing the decimal rendering of a port value within the u16 range
succeeds and returns the port. -/
theorem parseU16_natToDecBytes (p : Nat) (hp : p ≤ 65535) :
    parseU16 (natToDecBytes p) = some p := by
  have hdig : ∀ b ∈ natToDecBytes p, 48 ≤ b ∧ b ≤ 57 :=
    natToDecAux_digits (p + 1) p (Nat.lt_succ_self p)
  have hne : natToDecBytes p ≠ [] := natToDecAux_ne_nil (p + 1) p (Nat.lt_succ_self p)
  have hstrip : stripPlus (natToDecBytes p) = natToDecBytes p := by
    cases hd : natToDecBytes p with
    | nil => exact absurd hd hne
    | cons b bs =>
      have hb : 48 ≤ b ∧ b ≤ 57 := by
        apply hdig
        rw [hd]
        exact List.mem_cons_self b bs
      simp only [stripPlus, hd, List.headD_cons]
      rw [if_neg (by omega)]
  have hall : (natToDecBytes p).all isDigitByte = true := by
    rw [List.all_eq_true]
    intro b hb
    have := hdig b hb
    simp only [isDigitByte, Bool.and_eq_true, decide_eq_true_eq]
    omega
  have hfold : (natToDecBytes p).foldl (fun a b => a * 10 + (b - 48)) 0 = p :=
    natToDecAux_foldl (p + 1) p (Nat.lt_succ_self p)
  simp only [parseU16, parseDecU, hstrip, if_neg hne, hall, if_pos, hfold, if_pos hp]

/-! ## Claim C3: round trip of the discovery reply parser. -/

/-- C3: for every hostname, uuid and version byte string that is valid
UTF-8 and fits a length byte, and every port value whose decimal text fits
a length byte, the buffer built as the ENAME-tagged hostname, JSON-tagged
port text, UUID-tagged uuid and VERS-tagged version parses successfully
with parse_reply, recovering exactly the hostname, port, uuid and version
used to build it, with no input left over. -/
theorem parse_reply_roundtrip (h u v : Bytes) (p : Nat)
    (hhl : h.length ≤ 255) (hul : u.length ≤ 255) (hvl : v.length ≤ 255)
    (hpl : (natToDecBytes p).length ≤ 255)
    (hhu : utf8Valid h = true) (huu : utf8Valid u = true) (hvu : utf8Valid v = true)
    (hp : p ≤ 65535) :
    parse_reply (buildReply h p u v) =
      some ([], { hostname := h, port := p, uuid := u, version := v }) := by
  have hptext : utf8Valid (natToDecBytes p) = true := by
    apply utf8Valid_of_ascii
    intro b hb
    have := natToDecAux_digits (p + 1) p (Nat.lt_succ_self p) b hb
    omega
  have e1 : buildReply h p u v =
      buildField tagENAME h ++ (buildField tagJSON (natToDecBytes p) ++
        (buildField tagUUID u ++ (buildField tagVERS v ++ []))) := by
    simp [buildReply]
  have s1 : parse_hostname (buildReply h p u v) =
      some (buildField tagJSON (natToDecBytes p) ++
        (buildField tagUUID u ++ (buildField tagVERS v ++ [])), h) := by
    rw [e1]
    exact parse_tag_build tagENAME h _ hhu
  have s2 : parse_port (buildField tagJSON (natToDecBytes p) ++
      (buildField tagUUID u ++ (buildField tagVERS v ++ []))) =
      some (buildField tagUUID u ++ (buildField tagVERS v ++ []), p) := by
    simp only [parse_port, parse_tag_build tagJSON (natToDecBytes p) _ hptext,
      parseU16_natToDecBytes p hp]
  have s3 : parse_uuid (buildField tagUUID u ++ (buildField tagVERS v ++ [])) =
      some (buildField tagVERS v ++ [], u) :=
    parse_tag_build tagUUID u _ huu
  have s4 : parse_version (buildField tagVERS v ++ []) = some ([], v) :=
    parse_tag_build tagVERS v [] hvu
  simp only [parse_reply, s1, s2, s3, s4]

/-- Witness for C3 at a concrete buffer: hostname "ab", port 9000, uuid
"u", version "8.3". -/
theorem parse_reply_roundtrip_witness :
    ([97, 98] : Bytes).length ≤ 255 ∧ utf8Valid [97, 98] = true ∧ (9000 : Nat) ≤ 65535 ∧
      parse_reply (buildReply [97, 98] 9000 [117] [56, 46, 51]) =
        some ([], { hostname := [97, 98], port := 9000, uuid := [117], version := [56, 46, 51] }) :=
  ⟨by decide, by decide, by decide,
    parse_reply_roundtrip [97, 98] [117] [56, 46, 51] 9000 (by decide) (by decide) (by decide)
      (by decide) (by decide) (by decide) (by decide) (by decide)⟩

/-- Parsing the port field is stable under appending input. -/
theorem parse_port_append_stable (input r : Bytes) (p : Nat) (extra : Bytes)
    (h : parse_port input = some (r, p)) :
    parse_port (input ++ extra) = some (r ++ extra, p) := by
  cases h1 : parse_tag tagJSON input with
  | none => simp [parse_port, h1] at h
  | some rs =>
    obtain ⟨rest, s⟩ := rs
    cases h2 : parseU16 s with
    | none => simp [parse_port, h1, h2] at h
    | some q =>
      simp only [parse_port, h1, h2, Option.some.injEq, Prod.mk.injEq] at h
      obtain ⟨hr, hp⟩ := h
      subst hr; subst hp
      simp only [parse_port, parse_tag_append_stable tagJSON input rest s extra h1, h2]

/-- Parsing a whole reply is stable under appending input: the extra bytes
end up in the unconsumed remainder and the parsed record is unchanged. -/
theorem parse_reply_append_stable (input rest : Bytes) (r : Reply) (extra : Bytes)
    (h : parse_reply input = some (rest, r)) :
    parse_reply (input ++ extra) = some (rest ++ extra, r) := by
  cases h1 : parse_hostname input with
  | none => simp [parse_reply, h1] at h
  | some r1h =>
    obtain ⟨r1, hn⟩ := r1h
    cases h2 : parse_port r1 with
    | none => simp [parse_reply, h1, h2] at h
    | some r2p =>
      obtain ⟨r2, p⟩ := r2p
      cases h3 : parse_uuid r2 with
      | none => simp [parse_reply, h1, h2, h3] at h
      | some r3u =>
        obtain ⟨r3, u⟩ := r3u
        cases h4 : parse_version r3 with
        | none => simp [parse_reply, h1, h2, h3, h4] at h
        | some r4v =>
          obtain ⟨r4, v⟩ := r4v
          simp only [parse_reply, h1, h2, h3, h4, Option.some.injEq, Prod.mk.injEq] at h
          obtain ⟨hr4, hrec⟩ := h
          subst hr4; subst hrec
          simp only [parse_reply, parse_tag_append_stable tagENAME input r1 hn extra h1,
            parse_hostname, parse_port_append_stable r1 r2 p extra h2,
            parse_tag_append_stable tagUUID r2 r3 u extra h3,
            parse_uuid, parse_version,
            parse_tag_append_stable tagVERS r3 r4 v extra h4]

/-! ## Claim C4: failure modes of the discovery reply parser. -/

/-- C4: the reply parser is a total function (so it can neither panic nor
read out of bounds) and it returns a parse failure in each of the
specified situations: a tag literal that is not a prefix of the input at
its expected position, a declared length byte that would read past the end
of the buffer, value bytes that are not valid UTF-8, and a port text that
does not parse as a 16-bit unsigned integer; a field failure at any of the
four positions makes parse_reply fail, while arbitrary bytes trailing a
well-formed four-field prefix neither cause a failure nor change the
parsed reply. -/
theorem parse_reply_failure_modes :
    (∀ t input : Bytes, t.isPrefixOf input = false → parse_tag t input = none)
  ∧ (∀ (t : Bytes) (n : Nat) (rest : Bytes), rest.length < n →
      parse_tag t (t ++ n :: rest) = none)
  ∧ (∀ (t : Bytes) (n : Nat) (rest : Bytes), n ≤ rest.length →
      utf8Valid (rest.take n) = false → parse_tag t (t ++ n :: rest) = none)
  ∧ (∀ (input rest s : Bytes), parse_tag tagJSON input = some (rest, s) →
      parseU16 s = none → parse_port input = none)
  ∧ (∀ input : Bytes, parse_hostname input = none → parse_reply input = none)
  ∧ (∀ (input r1 h : Bytes), parse_hostname input = some (r1, h) →
      parse_port r1 = none → parse_reply input = none)
  ∧ (∀ (input r1 h r2 : Bytes) (p : Nat), parse_hostname input = some (r1, h) →
      parse_port r1 = some (r2, p) → parse_uuid r2 = none → parse_reply input = none)
  ∧ (∀ (input r1 h r2 : Bytes) (p : Nat) (r3 u : Bytes),
      parse_hostname input = some (r1, h) → parse_port r1 = some (r2, p) →
      parse_uuid r2 = some (r3, u) → parse_version r3 = none → parse_reply input = none)
  ∧ (∀ (pre : Bytes) (r : Reply) (trailing : Bytes), parse_reply pre = some ([], r) →
      parse_reply (pre ++ trailing) = some (trailing, r)) := by
  refine ⟨?_, ?_, ?_, ?_, ?_, ?_, ?_, ?_, ?_⟩
  · intro t input hpre
    simp [parse_tag, (nomTag_eq_none_iff t input).mpr hpre]
  · intro t n rest hlen
    have hn : ¬ n ≤ rest.length := by omega
    simp [parse_tag, nomTag_self_append, beU8, nomTake, hn]
  · intro t n rest hlen hutf
    simp [parse_tag, nomTag_self_append, beU8, nomTake, hlen, fromUtf8, hutf]
  · intro input rest s h1 h2
    simp [parse_port, h1, h2]
  · intro input h1
    simp [parse_reply, h1]
  · intro input r1 h h1 h2
    simp [parse_reply, h1, h2]
  · intro input r1 h r2 p h1 h2 h3
    simp [parse_reply, h1, h2, h3]
  · intro input r1 h r2 p r3 u h1 h2 h3 h4
    simp [parse_reply, h1, h2, h3, h4]
  · intro pre r trailing h
    have := parse_reply_append_stable pre [] r trailing h
    simpa using this

/-- Witness for C4: each failure conjunct applied at a concrete buffer,
and the trailing-bytes conjunct applied to a concrete well-formed reply
followed by zero padding. -/
theorem parse_reply_failure_modes_witness :
    (tagENAME.isPrefixOf [0, 1, 2] = false ∧ parse_tag tagENAME [0, 1, 2] = none)
  ∧ (([1] : Bytes).length < 9 ∧ parse_tag tagJSON (tagJSON ++ 9 :: [1]) = none)
  ∧ (1 ≤ ([255] : Bytes).length ∧ utf8Valid (([255] : Bytes).take 1) = false ∧
      parse_tag tagUUID (tagUUID ++ 1 :: [255]) = none)
  ∧ (parse_tag tagJSON (tagJSON ++ [2, 57, 120]) = some ([], [57, 120]) ∧
      parseU16 [57, 120] = none ∧ parse_port (tagJSON ++ [2, 57, 120]) = none)
  ∧ (parse_reply (buildReply [97] 9000 [117] [56] ++ [0, 0, 0]) =
      some ([0, 0, 0], { hostname := [97], port := 9000, uuid := [117], version := [56] })) := by
  refine ⟨⟨by decide, ?_⟩, ⟨by decide, ?_⟩, ⟨by decide, by decide, ?_⟩,
    ⟨by decide, by decide, ?_⟩, ?_⟩
  · exact parse_reply_failure_modes.1 tagENAME [0, 1, 2] (by decide)
  · exact parse_reply_failure_modes.2.1 tagJSON 9 [1] (by decide)
  · exact parse_reply_failure_modes.2.2.1 tagUUID 1 [255] (by decide) (by decide)
  · exact parse_reply_failure_modes.2.2.2.1 (tagJSON ++ [2, 57, 120]) [] [57, 120]
      (by decide) (by decide)
  · exact parse_reply_failure_modes.2.2.2.2.2.2.2.2 (buildReply [97] 9000 [117] [56])
      { hostname := [97], port := 9000, uuid := [117], version := [56] } [0, 0, 0] (by decide)

/-! ## Claim C7: the discover retry loop of src/discover.rs. -/

/-- Outcome of one send-and-receive attempt inside discover: the
per-attempt timeout elapsed, the socket operation failed, or a datagram
arrived from some source address. -/
inductive AttemptOutcome where
  | timeout
  | recvErr
  | received (ip : String) (buffer : Bytes)
deriving Repr, DecidableEq

/-- Terminal outcome of discover: a transport error, a fatal reply-parse
error, or the parsed reply paired with the datagram sender's address. -/
inductive DiscoverResult where
  | transportError
  | parseError
  | ok (ip : String) (reply : Reply)
deriving Repr, DecidableEq

/-- Embedding of the discover loop of src/discover.rs over a schedule of
attempt outcomes: a timeout logs and retries the send-and-receive cycle, a
socket error returns immediately, and the first received datagram leaves
the loop and is parsed, a parse failure being fatal with no further retry.
A result of none means the modelled schedule ran out while the loop was
still retrying. -/
def discover : List AttemptOutcome → Option DiscoverResult
  | [] => none
  | .timeout :: rest => discover rest
  | .recvErr :: _ => some .transportError
  | .received ip buffer :: _ =>
    some (match parse_reply buffer with
      | some (_, reply) => .ok ip reply
      | none => .parseError)

/-- C7: a per-attempt timeout never terminates discovery, the cycle being
retried indefinitely and without backoff, so that any run of timeouts
leaves the loop still running; once a datagram is received, a parse
failure makes discover return a fatal error immediately with no further
retry, and a successful parse returns the reply paired with the datagram
sender's source address. -/
theorem discover_retry_and_fatal_parse :
    (∀ rest : List AttemptOutcome, discover (.timeout :: rest) = discover rest)
  ∧ (∀ n : Nat, discover (List.replicate n .timeout) = none)
  ∧ (∀ (ip : String) (buffer : Bytes) (rest : List AttemptOutcome),
      parse_reply buffer = none →
        discover (.received ip buffer :: rest) = some .parseError)
  ∧ (∀ (ip : String) (buffer : Bytes) (rest : List AttemptOutcome)
      (left : Bytes) (reply : Reply),
      parse_reply buffer = some (left, reply) →
        discover (.received ip buffer :: rest) = some (.ok ip reply)) := by
  refine ⟨fun rest => rfl, ?_, ?_, ?_⟩
  · intro n
    induction n with
    | zero => rfl
    | succ k ih => simpa [List.replicate, discover] using ih
  · intro ip buffer rest h
    simp [discover, h]
  · intro ip buffer rest left reply h
    simp [discover, h]

/-- Witness for C7: a malformed one-byte datagram is fatal after two
timeouts would have been retried, and a well-formed datagram yields the
reply with the sender's address. -/
theorem discover_retry_witness :
    (parse_reply [0] = none ∧
      discover [.received "10.0.0.7" [0]] = some .parseError)
  ∧ (parse_reply (buildReply [97] 9000 [117] [56]) =
        some ([], { hostname := [97], port := 9000, uuid := [117], version := [56] }) ∧
      discover [.timeout, .received "10.0.0.7" (buildReply [97] 9000 [117] [56])] =
        some (.ok "10.0.0.7" { hostname := [97], port := 9000, uuid := [117], version := [56] })) := by
  refine ⟨⟨by decide, ?_⟩, ⟨by decide, ?_⟩⟩
  · exact discover_retry_and_fatal_parse.2.2.1 "10.0.0.7" [0] [] (by decide)
  · rw [discover_retry_and_fatal_parse.1]
    exact discover_retry_and_fatal_parse.2.2.2 "10.0.0.7" (buildReply [97] 9000 [117] [56]) []
      [] { hostname := [97], port := 9000, uuid := [117], version := [56] } (by decide)

/-! ## The control client of src/lms/mod.rs: JSON values, the error
taxonomy and the typed extractors. -/

/-- Embedding of serde_json::Number: either an integer (serde stores u64
or i64, so any integer in that combined range) or a floating point
number, on which the integer accessors always fail. -/
inductive JNum where
  | int (i : Int)
  | float
deriving Repr, DecidableEq

/-- Embedding of serde_json::Number::as_i64: succeeds exactly on integers
in the i64 range. -/
def JNum.asI64 : JNum → Option Int
  | .int i => if -(2 ^ 63) ≤ i ∧ i < 2 ^ 63 then some i else none
  | .float => none

/-- Embedding of serde_json::Number::as_u64: succeeds exactly on integers
in the u64 range. -/
def JNum.asU64 : JNum → Option Nat
  | .int i => if 0 ≤ i ∧ i < 2 ^ 64 then some i.toNat else none
  | .float => none

/-- Embedding of serde_json::Value. -/
inductive Json where
  | null
  | bool (b : Bool)
  | num (n : JNum)
  | str (s : String)
  | arr (xs : List Json)
  | obj (fields : List (String × Json))

/-- Lookup of a key in a JSON object's field list, modelling Map::remove
as used by result_field (the removed value is what the caller uses). -/
def jlookup : List (String × Json) → String → Option Json
  | [], _ => none
  | (k, v) :: rest, key => if k = key then some v else jlookup rest key

/-- Embedding of the client error taxonomy of src/lms/mod.rs: the two
ResultError variants, the bail messages of the extractors, integer
conversion failures, and the per-operation labels wrapped by
handle_error.  Error values are modelled by their variant and the field or
message they name; the response payload that Rust embeds in the message
for logging is dropped, which the claims never inspect. -/
inductive Err where
  | resultHasWrongType
  | noField (field : String)
  | wrongTopLevel (expected : String)
  | notI64
  | notU64
  | parseInt
  | badEnumValue
  | op (msg : String)
deriving Repr, DecidableEq

/-- Embedding of the LmsResponse struct: the echoed method and params and
the untyped result payload. -/
structure LmsResponse where
  method : String
  params : String × List String
  result : Json

/-- Embedding of result_field of src/lms/mod.rs: the result payload must
be a JSON object, and the queried field must be present in it. -/
def result_field (response : LmsResponse) (field : String) : Except Err Json :=
  match response.result with
  | .obj m =>
    match jlookup m field with
    | some v => .ok v
    | none => .error (.noField field)
  | _ => .error .resultHasWrongType

/-- Embedding of s.parse with target u64, as used by as_u64 on a JSON
string. -/
def parseU64 (s : String) : Option Nat :=
  parseDecU (2 ^ 64 - 1) (s.data.map Char.toNat)

/-- Embedding of as_bool of src/lms/mod.rs: a JSON number convertible to
i64 decodes to the comparison with zero; anything else fails. -/
def as_bool (response : LmsResponse) (field : String) : Except Err Bool :=
  match result_field response field with
  | .error e => .error e
  | .ok v =>
    match v with
    | .num n =>
      match n.asI64 with
      | some i => .ok (i != 0)
      | none => .error .notI64
    | _ => .error (.wrongTopLevel "bool")

/-- Embedding of as_u64 of src/lms/mod.rs: a JSON string parsed as u64,
or a JSON number convertible to u64; anything else fails. -/
def as_u64 (response : LmsResponse) (field : String) : Except Err Nat :=
  match result_field response field with
  | .error e => .error e
  | .ok v =>
    match v with
    | .str s =>
      match parseU64 s with
      | some n => .ok n
      | none => .error .parseInt
    | .num n =>
      match n.asU64 with
      | some u => .ok u
      | none => .error .notU64
    | _ => .error (.wrongTopLevel "u64")

/-- Embedding of as_string of src/lms/mod.rs: only a JSON string value is
accepted. -/
def as_string (response : LmsResponse) (field : String) : Except Err String :=
  match result_field response field with
  | .error e => .error e
  | .ok v =>
    match v with
    | .str s => .ok s
    | _ => .error (.wrongTopLevel "string")

/-- Embedding of as_string_or_not_there of src/lms/mod.rs: a missing
field is recovered into the explicit absent outcome, every other error is
passed through. -/
def as_string_or_not_there (response : LmsResponse) (field : String) :
    Except Err (Option String) :=
  match as_string response field with
  | .ok s => .ok (some s)
  | .error e =>
    match e with
    | .noField _ => .ok none
    | _ => .error e

/-- Embedding of the Mode enum of src/lms/mod.rs. -/
inductive Mode where
  | Stop
  | Play
  | Pause
deriving Repr, DecidableEq

/-- Embedding of the Shuffle enum of src/lms/mod.rs. -/
inductive Shuffle where
  | Off
  | Songs
  | Albums
deriving Repr, DecidableEq

/-- Embedding of as_mode of src/lms/mod.rs: exactly the strings stop,
play and pause decode; any other string and any non-string fail. -/
def as_mode (response : LmsResponse) (field : String) : Except Err Mode :=
  match result_field response field with
  | .error e => .error e
  | .ok v =>
    match v with
    | .str s =>
      if s = "stop" then .ok .Stop
      else if s = "play" then .ok .Play
      else if s = "pause" then .ok .Pause
      else .error .badEnumValue
    | _ => .error (.wrongTopLevel "mode")

/-- Embedding of as_shuffle of src/lms/mod.rs: the strings 0, 1 and 2 and
the u64-convertible numbers 0, 1 and 2 decode; any other value fails. -/
def as_shuffle (response : LmsResponse) (field : String) : Except Err Shuffle :=
  match result_field response field with
  | .error e => .error e
  | .ok v =>
    match v with
    | .str s =>
      if s = "0" then .ok .Off
      else if s = "1" then .ok .Songs
      else if s = "2" then .ok .Albums
      else .error .badEnumValue
    | .num n =>
      match n.asU64 with
      | some u =>
        if u = 0 then .ok .Off
        else if u = 1 then .ok .Songs
        else if u = 2 then .ok .Albums
        else .error .badEnumValue
      | none => .error .badEnumValue
    | _ => .error (.wrongTopLevel "shuffle")

/-! ## Claim C5: absent-key semantics of the optional-string queries. -/

/-- C5: for the optional-string extraction used by get_artist, get_title
and get_album, a result object that omits the queried key yields the
explicit absent outcome rather than an error; a result that is not a JSON
object at all yields the protocol-shape failure; and a key present with a
string value yields that string. -/
theorem optional_string_absent_semantics :
    ∀ (response : LmsResponse) (field : String),
      (∀ m, response.result = .obj m → jlookup m field = none →
        as_string_or_not_there response field = .ok none)
    ∧ ((∀ m, response.result ≠ .obj m) →
        as_string_or_not_there response field = .error .resultHasWrongType)
    ∧ (∀ m s, response.result = .obj m → jlookup m field = some (.str s) →
        as_string_or_not_there response field = .ok (some s)) := by
  intro response field
  refine ⟨?_, ?_, ?_⟩
  · intro m hres hlook
    simp [as_string_or_not_there, as_string, result_field, hres, hlook]
  · intro hnot
    cases hres : response.result with
    | obj m => exact absurd hres (hnot m)
    | null => simp [as_string_or_not_there, as_string, result_field, hres]
    | bool b => simp [as_string_or_not_there, as_string, result_field, hres]
    | num n => simp [as_string_or_not_there, as_string, result_field, hres]
    | str s => simp [as_string_or_not_there, as_string, result_field, hres]
    | arr xs => simp [as_string_or_not_there, as_string, result_field, hres]
  · intro m s hres hlook
    simp [as_string_or_not_there, as_string, result_field, hres, hlook]

/-- Witness for C5: an empty result object yields the absent outcome, a
string result payload yields the protocol-shape failure, and a present
key yields its string. -/
theorem optional_string_absent_witness :
    (as_string_or_not_there ⟨"slim.request", ("p", []), .obj []⟩ "_artist" = .ok none)
  ∧ (as_string_or_not_there ⟨"slim.request", ("p", []), .str "x"⟩ "_artist" =
      .error .resultHasWrongType)
  ∧ (as_string_or_not_there
      ⟨"slim.request", ("p", []), .obj [("_artist", .str "Prince")]⟩ "_artist" =
      .ok (some "Prince")) :=
  ⟨(optional_string_absent_semantics ⟨"slim.request", ("p", []), .obj []⟩ "_artist").1
      [] rfl rfl,
   (optional_string_absent_semantics ⟨"slim.request", ("p", []), .str "x"⟩ "_artist").2.1
      (fun m h => Json.noConfusion h),
   (optional_string_absent_semantics
      ⟨"slim.request", ("p", []), .obj [("_artist", .str "Prince")]⟩ "_artist").2.2
      [("_artist", .str "Prince")] "Prince" rfl (by simp [jlookup])⟩

/-! ## Claim C6: the closed enum mappings of the shuffle and mode
decoders. -/

/-- C6: given a result object holding the queried field with value v, the
shuffle decoder succeeds exactly on the strings 0, 1, 2 and the integer
numbers 0, 1, 2, each mapped to its enum value, and the mode decoder
succeeds exactly on the strings stop, play and pause; every other value
fails, with no default mapping. -/
theorem shuffle_mode_decoders_closed_mapping :
    ∀ (response : LmsResponse) (field : String) (m : List (String × Json)) (v : Json),
      response.result = .obj m → jlookup m field = some v →
      (as_shuffle response field = .ok .Off ↔ (v = .str "0" ∨ v = .num (.int 0)))
    ∧ (as_shuffle response field = .ok .Songs ↔ (v = .str "1" ∨ v = .num (.int 1)))
    ∧ (as_shuffle response field = .ok .Albums ↔ (v = .str "2" ∨ v = .num (.int 2)))
    ∧ ((∃ sh, as_shuffle response field = .ok sh) ↔
        (v = .str "0" ∨ v = .str "1" ∨ v = .str "2" ∨
         v = .num (.int 0) ∨ v = .num (.int 1) ∨ v = .num (.int 2)))
    ∧ (as_mode response field = .ok .Stop ↔ v = .str "stop")
    ∧ (as_mode response field = .ok .Play ↔ v = .str "play")
    ∧ (as_mode response field = .ok .Pause ↔ v = .str "pause")
    ∧ ((∃ mo, as_mode response field = .ok mo) ↔
        (v = .str "stop" ∨ v = .str "play" ∨ v = .str "pause")) := by
  intro response field m v hres hlook
  have hrf : result_field response field = .ok v := by
    simp [result_field, hres, hlook]
  cases v with
  | str s =>
    refine ⟨?_, ?_, ?_, ?_, ?_, ?_, ?_, ?_⟩ <;>
      simp only [as_shuffle, as_mode, hrf] <;>
      split_ifs with h1 h2 h3 <;>
      simp_all
  | num n =>
    cases n with
    | float =>
      refine ⟨?_, ?_, ?_, ?_, ?_, ?_, ?_, ?_⟩ <;>
        simp [as_shuffle, as_mode, hrf, JNum.asU64]
    | int i =>
      have hmerr : as_mode response field = .error (.wrongTopLevel "mode") := by
        simp [as_mode, hrf]
      by_cases h0 : i = 0
      · subst h0
        refine ⟨?_, ?_, ?_, ?_, ?_, ?_, ?_, ?_⟩ <;>
          simp [as_shuffle, hrf, hmerr, JNum.asU64]
      · by_cases h1 : i = 1
        · subst h1
          refine ⟨?_, ?_, ?_, ?_, ?_, ?_, ?_, ?_⟩ <;>
            simp [as_shuffle, hrf, hmerr, JNum.asU64]
        · by_cases h2 : i = 2
          · subst h2
            refine ⟨?_, ?_, ?_, ?_, ?_, ?_, ?_, ?_⟩ <;>
              simp [as_shuffle, hrf, hmerr, JNum.asU64]
          · have hsherr : as_shuffle response field = .error .badEnumValue := by
              simp only [as_shuffle, hrf]
              cases hu : JNum.asU64 (.int i) with
              | none => simp
              | some u =>
                have hui : 0 ≤ i ∧ u = i.toNat := by
                  simp only [JNum.asU64] at hu
                  by_cases hi : 0 ≤ i ∧ i < 2 ^ 64
                  · rw [if_pos hi] at hu
                    exact ⟨hi.1, by simpa using hu.symm⟩
                  · rw [if_neg hi] at hu
                    exact absurd hu (by simp)
                have hu0 : u ≠ 0 := by omega
                have hu1 : u ≠ 1 := by omega
                have hu2 : u ≠ 2 := by omega
                simp [hu0, hu1, hu2]
            refine ⟨?_, ?_, ?_, ?_, ?_, ?_, ?_, ?_⟩ <;>
              simp [hsherr, hmerr, h0, h1, h2]
  | null =>
    refine ⟨?_, ?_, ?_, ?_, ?_, ?_, ?_, ?_⟩ <;> simp [as_shuffle, as_mode, hrf]
  | bool b =>
    refine ⟨?_, ?_, ?_, ?_, ?_, ?_, ?_, ?_⟩ <;> simp [as_shuffle, as_mode, hrf]
  | arr xs =>
    refine ⟨?_, ?_, ?_, ?_, ?_, ?_, ?_, ?_⟩ <;> simp [as_shuffle, as_mode, hrf]
  | obj fields =>
    refine ⟨?_, ?_, ?_, ?_, ?_, ?_, ?_, ?_⟩ <;> simp [as_shuffle, as_mode, hrf]

/-- Witness for C6: the string 1 and the number 1 both decode to Songs,
the string 3 decodes to no shuffle value at all, and the string play
decodes to Play. -/
theorem shuffle_mode_decoders_witness :
    (as_shuffle ⟨"slim.request", ("p", []), .obj [("_shuffle", .str "1")]⟩ "_shuffle" =
      .ok .Songs)
  ∧ (as_shuffle ⟨"slim.request", ("p", []), .obj [("_shuffle", .num (.int 1))]⟩ "_shuffle" =
      .ok .Songs)
  ∧ (¬ ∃ sh, as_shuffle ⟨"slim.request", ("p", []), .obj [("_shuffle", .str "3")]⟩ "_shuffle" =
      .ok sh)
  ∧ (as_mode ⟨"slim.request", ("p", []), .obj [("_mode", .str "play")]⟩ "_mode" = .ok .Play) := by
  refine ⟨?_, ?_, ?_, ?_⟩
  · exact (shuffle_mode_decoders_closed_mapping
      ⟨"slim.request", ("p", []), .obj [("_shuffle", .str "1")]⟩ "_shuffle"
      [("_shuffle", .str "1")] (.str "1") rfl (by simp [jlookup])).2.1.mpr (Or.inl rfl)
  · exact (shuffle_mode_decoders_closed_mapping
      ⟨"slim.request", ("p", []), .obj [("_shuffle", .num (.int 1))]⟩ "_shuffle"
      [("_shuffle", .num (.int 1))] (.num (.int 1)) rfl (by simp [jlookup])).2.1.mpr
      (Or.inr rfl)
  · intro hex
    have h3 := (shuffle_mode_decoders_closed_mapping
      ⟨"slim.request", ("p", []), .obj [("_shuffle", .str "3")]⟩ "_shuffle"
      [("_shuffle", .str "3")] (.str "3") rfl (by simp [jlookup])).2.2.2.1.mp hex
    simp at h3
  · exact (shuffle_mode_decoders_closed_mapping
      ⟨"slim.request", ("p", []), .obj [("_mode", .str "play")]⟩ "_mode"
      [("_mode", .str "play")] (.str "play") rfl (by simp [jlookup])).2.2.2.2.2.1.mpr rfl

/-! ## Claim C8: the scalar coercion steps of as_u64 and as_bool. -/

/-- C8: given a result object holding the queried field with value v, the
unsigned extractor succeeds exactly on a JSON number in the u64 range and
on a JSON string whose text parses as u64, the two forms yielding equal
values; the boolean extractor succeeds exactly on a JSON number in the
i64 range, zero mapping to false and anything else to true; every other
JSON kind, including a numeric string for the boolean, fails. -/
theorem scalar_coercion_aliasing :
    ∀ (response : LmsResponse) (field : String) (m : List (String × Json)) (v : Json),
      response.result = .obj m → jlookup m field = some v →
      (∀ (s : String) (n : Nat), v = .str s → parseU64 s = some n →
        as_u64 response field = .ok n)
    ∧ (∀ i : Int, 0 ≤ i → i < 2 ^ 64 → v = .num (.int i) →
        as_u64 response field = .ok i.toNat)
    ∧ ((∃ n, as_u64 response field = .ok n) ↔
        ((∃ (s : String) (n : Nat), v = .str s ∧ parseU64 s = some n) ∨
         (∃ i : Int, v = .num (.int i) ∧ 0 ≤ i ∧ i < 2 ^ 64)))
    ∧ (∀ i : Int, -(2 ^ 63) ≤ i → i < 2 ^ 63 → v = .num (.int i) →
        as_bool response field = .ok (i != 0))
    ∧ ((∃ b, as_bool response field = .ok b) ↔
        (∃ i : Int, v = .num (.int i) ∧ -(2 ^ 63) ≤ i ∧ i < 2 ^ 63)) := by
  intro response field m v hres hlook
  have hrf : result_field response field = .ok v := by
    simp [result_field, hres, hlook]
  refine ⟨?_, ?_, ?_, ?_, ?_⟩
  · intro s n hv hp
    subst hv
    simp [as_u64, hrf, hp]
  · intro i h0 h64 hv
    subst hv
    have hu : JNum.asU64 (.int i) = some i.toNat := by
      simp [JNum.asU64, h0, h64] <;> omega
    simp [as_u64, hrf, hu]
  · cases v with
    | str s =>
      cases hp : parseU64 s with
      | none => simp [as_u64, hrf, hp]
      | some n => simp [as_u64, hrf, hp]
    | num n =>
      cases n with
      | float => simp [as_u64, hrf, JNum.asU64]
      | int i =>
        by_cases hi : 0 ≤ i ∧ i < 2 ^ 64
        · have hu : JNum.asU64 (.int i) = some i.toNat := by
            simp [JNum.asU64, hi] <;> omega
          simp only [as_u64, hrf, hu]
          constructor
          · intro _; exact Or.inr ⟨i, rfl, hi⟩
          · intro _; exact ⟨i.toNat, rfl⟩
        · have hu : JNum.asU64 (.int i) = none := by
            simp [JNum.asU64, hi] <;> omega
          simp only [as_u64, hrf, hu]
          constructor
          · intro h; simp at h
          · intro h
            rcases h with ⟨s, n, hsn, _⟩ | ⟨j, hj, hjr⟩
            · exact absurd hsn (by simp)
            · have : j = i := by
                have := hj
                simp at this
                omega
              subst this
              exact absurd hjr hi
    | null => simp [as_u64, hrf]
    | bool b => simp [as_u64, hrf]
    | arr xs => simp [as_u64, hrf]
    | obj fields => simp [as_u64, hrf]
  · intro i hlo hhi hv
    subst hv
    have hi64 : JNum.asI64 (.int i) = some i := by
      simp [JNum.asI64, hlo, hhi] <;> omega
    simp [as_bool, hrf, hi64]
  · cases v with
    | str s => simp [as_bool, hrf]
    | num n =>
      cases n with
      | float => simp [as_bool, hrf, JNum.asI64]
      | int i =>
        by_cases hi : -(2 ^ 63) ≤ i ∧ i < 2 ^ 63
        · have hi64 : JNum.asI64 (.int i) = some i := by
            simp [JNum.asI64, hi] <;> omega
          simp only [as_bool, hrf, hi64]
          constructor
          · intro _; exact ⟨i, rfl, hi⟩
          · intro _; exact ⟨i != 0, rfl⟩
        · have hi64 : JNum.asI64 (.int i) = none := by
            simp [JNum.asI64, hi] <;> omega
          simp only [as_bool, hrf, hi64]
          constructor
          · intro h; simp at h
          · intro h
            rcases h with ⟨j, hj, hjr⟩
            have : j = i := by
              have := hj
              simp at this
              omega
            subst this
            exact absurd hjr hi
    | null => simp [as_bool, hrf]
    | bool b => simp [as_bool, hrf]
    | arr xs => simp [as_bool, hrf]
    | obj fields => simp [as_bool, hrf]

/-- Witness for C8: the numeric string 7 and the JSON number 7 both
decode to the count 7, the JSON number 1 decodes to the boolean true, the
number 0 to false, and the numeric string 1 is rejected by the boolean
extractor. -/
theorem scalar_coercion_witness :
    (as_u64 ⟨"slim.request", ("", []), .obj [("_count", .str "7")]⟩ "_count" = .ok 7)
  ∧ (as_u64 ⟨"slim.request", ("", []), .obj [("_count", .num (.int 7))]⟩ "_count" = .ok 7)
  ∧ (as_bool ⟨"slim.request", ("p", []), .obj [("_connected", .num (.int 1))]⟩ "_connected" =
      .ok true)
  ∧ (as_bool ⟨"slim.request", ("p", []), .obj [("_connected", .num (.int 0))]⟩ "_connected" =
      .ok false)
  ∧ (¬ ∃ b, as_bool ⟨"slim.request", ("p", []), .obj [("_connected", .str "1")]⟩ "_connected" =
      .ok b) := by
  refine ⟨?_, ?_, ?_, ?_, ?_⟩
  · exact (scalar_coercion_aliasing
      ⟨"slim.request", ("", []), .obj [("_count", .str "7")]⟩ "_count"
      [("_count", .str "7")] (.str "7") rfl (by simp [jlookup])).1 "7" 7 rfl (by decide)
  · exact (scalar_coercion_aliasing
      ⟨"slim.request", ("", []), .obj [("_count", .num (.int 7))]⟩ "_count"
      [("_count", .num (.int 7))] (.num (.int 7)) rfl (by simp [jlookup])).2.1 7
      (by decide) (by decide) rfl
  · exact (scalar_coercion_aliasing
      ⟨"slim.request", ("p", []), .obj [("_connected", .num (.int 1))]⟩ "_connected"
      [("_connected", .num (.int 1))] (.num (.int 1)) rfl (by simp [jlookup])).2.2.2.1 1
      (by decide) (by decide) rfl
  · exact (scalar_coercion_aliasing
      ⟨"slim.request", ("p", []), .obj [("_connected", .num (.int 0))]⟩ "_connected"
      [("_connected", .num (.int 0))] (.num (.int 0)) rfl (by simp [jlookup])).2.2.2.1 0
      (by decide) (by decide) rfl
  · intro hex
    have h := (scalar_coercion_aliasing
      ⟨"slim.request", ("p", []), .obj [("_connected", .str "1")]⟩ "_connected"
      [("_connected", .str "1")] (.str "1") rfl (by simp [jlookup])).2.2.2.2.mp hex
    simp at h

/-! ## Claim C1: error forwarding by the public client operations of
src/lms/mod.rs.  The mpsc error channel is modelled as the list of errors
sent so far; the capacity-one channel is drained by the supervising task,
so a send is modelled as appending one element.  Each operation's inner
async block (request building, HTTP round trip, extraction) is modelled by
its outcome, passed as an argument, since handle_error wraps that whole
outcome. -/

/-- Embedding of the Player record of src/lms/mod.rs. -/
structure Player where
  name : String
  playerid : String
deriving Repr, DecidableEq

/-- Embedding of the client state produced by LmsClient::new: the server
URL and the error channel, created empty. -/
structure LmsClientState where
  url : String
  channel : List Err

/-- Embedding of LmsClient::new of src/lms/mod.rs. -/
def LmsClient.new (hostname : String) (port : Nat) : LmsClientState :=
  { url := "http://" ++ hostname ++ ":" ++ toString port ++ "/jsonrpc.js", channel := [] }

/-- Embedding of LmsClient::handle_error of src/lms/mod.rs: a success is
returned untouched and nothing is sent; a failure sends the underlying
cause to the error channel once and returns the operation's label to the
caller. -/
def handle_error (sent : List Err) (result : Except Err α) (error : Err) :
    List Err × Except Err α :=
  match result with
  | .ok s => (sent, .ok s)
  | .error e => (sent ++ [e], .error error)

/-- Embedding of LmsClient::get_version. -/
def LmsClient.get_version (sent : List Err) (inner : Except Err String) :
    List Err × Except Err String :=
  handle_error sent inner (.op "Error get_version")

/-- Embedding of LmsClient::get_connected. -/
def LmsClient.get_connected (name : String) (sent : List Err) (inner : Except Err Bool) :
    List Err × Except Err Bool :=
  handle_error sent inner (.op "Error get_connected")

/-- Embedding of LmsClient::get_player_count; its label in the source is
the string Error player_count. -/
def LmsClient.get_player_count (sent : List Err) (inner : Except Err Nat) :
    List Err × Except Err Nat :=
  handle_error sent inner (.op "Error player_count")

/-- Embedding of LmsClient::get_players. -/
def LmsClient.get_players (sent : List Err) (inner : Except Err (List Player)) :
    List Err × Except Err (List Player) :=
  handle_error sent inner (.op "Error get_players")

/-- Embedding of LmsClient::get_index. -/
def LmsClient.get_index (name : String) (sent : List Err) (inner : Except Err Nat) :
    List Err × Except Err Nat :=
  handle_error sent inner (.op "Error get_index")

/-- Embedding of LmsClient::get_track_count. -/
def LmsClient.get_track_count (name : String) (sent : List Err) (inner : Except Err Nat) :
    List Err × Except Err Nat :=
  handle_error sent inner (.op "Error get_track_count")

/-- Embedding of LmsClient::get_shuffle. -/
def LmsClient.get_shuffle (name : String) (sent : List Err) (inner : Except Err Shuffle) :
    List Err × Except Err Shuffle :=
  handle_error sent inner (.op "Error get_shuffle")

/-- Embedding of LmsClient::get_mode. -/
def LmsClient.get_mode (name : String) (sent : List Err) (inner : Except Err Mode) :
    List Err × Except Err Mode :=
  handle_error sent inner (.op "Error get_mode")

/-- Embedding of LmsClient::get_artist. -/
def LmsClient.get_artist (name : String) (sent : List Err)
    (inner : Except Err (Option String)) : List Err × Except Err (Option String) :=
  handle_error sent inner (.op "Error get_artist")

/-- Embedding of LmsClient::get_title. -/
def LmsClient.get_title (name : String) (sent : List Err)
    (inner : Except Err (Option String)) : List Err × Except Err (Option String) :=
  handle_error sent inner (.op "Error get_title")

/-- Embedding of LmsClient::get_album. -/
def LmsClient.get_album (name : String) (sent : List Err)
    (inner : Except Err (Option String)) : List Err × Except Err (Option String) :=
  handle_error sent inner (.op "Error get_album")

/-- Embedding of LmsClient::play. -/
def LmsClient.play (name : String) (sent : List Err) (inner : Except Err Unit) :
    List Err × Except Err Unit :=
  handle_error sent inner (.op "Error play")

/-- Embedding of LmsClient::stop. -/
def LmsClient.stop (name : String) (sent : List Err) (inner : Except Err Unit) :
    List Err × Except Err Unit :=
  handle_error sent inner (.op "Error stop")

/-- Embedding of LmsClient::pause. -/
def LmsClient.pause (name : String) (sent : List Err) (inner : Except Err Unit) :
    List Err × Except Err Unit :=
  handle_error sent inner (.op "Error pause")

/-- Embedding of LmsClient::play_pause. -/
def LmsClient.play_pause (name : String) (sent : List Err) (inner : Except Err Unit) :
    List Err × Except Err Unit :=
  handle_error sent inner (.op "Error play_pause")

/-- Embedding of LmsClient::previous. -/
def LmsClient.previous (name : String) (sent : List Err) (inner : Except Err Unit) :
    List Err × Except Err Unit :=
  handle_error sent inner (.op "Error previous")

/-- Embedding of LmsClient::next. -/
def LmsClient.next (name : String) (sent : List Err) (inner : Except Err Unit) :
    List Err × Except Err Unit :=
  handle_error sent inner (.op "Error next")

/-- C1: the channel created by LmsClient::new starts empty, and every
public operation, when its inner computation fails with any cause e, both
returns a failure to its caller and appends that cause exactly once to
the error channel, while on success it returns the value and appends
nothing. -/
theorem lms_ops_error_channel :
    ∀ (hostname : String) (port : Nat) (sent : List Err) (e : Err) (name : String),
      ((LmsClient.new hostname port).channel = [])
    ∧ (LmsClient.get_version sent (.error e) = (sent ++ [e], .error (.op "Error get_version")))
    ∧ (∀ x : String, LmsClient.get_version sent (.ok x) = (sent, .ok x))
    ∧ (LmsClient.get_connected name sent (.error e) =
        (sent ++ [e], .error (.op "Error get_connected")))
    ∧ (∀ x : Bool, LmsClient.get_connected name sent (.ok x) = (sent, .ok x))
    ∧ (LmsClient.get_player_count sent (.error e) =
        (sent ++ [e], .error (.op "Error player_count")))
    ∧ (∀ x : Nat, LmsClient.get_player_count sent (.ok x) = (sent, .ok x))
    ∧ (LmsClient.get_players sent (.error e) = (sent ++ [e], .error (.op "Error get_players")))
    ∧ (∀ x : List Player, LmsClient.get_players sent (.ok x) = (sent, .ok x))
    ∧ (LmsClient.get_index name sent (.error e) =
        (sent ++ [e], .error (.op "Error get_index")))
    ∧ (∀ x : Nat, LmsClient.get_index name sent (.ok x) = (sent, .ok x))
    ∧ (LmsClient.get_track_count name sent (.error e) =
        (sent ++ [e], .error (.op "Error get_track_count")))
    ∧ (∀ x : Nat, LmsClient.get_track_count name sent (.ok x) = (sent, .ok x))
    ∧ (LmsClient.get_shuffle name sent (.error e) =
        (sent ++ [e], .error (.op "Error get_shuffle")))
    ∧ (∀ x : Shuffle, LmsClient.get_shuffle name sent (.ok x) = (sent, .ok x))
    ∧ (LmsClient.get_mode name sent (.error e) = (sent ++ [e], .error (.op "Error get_mode")))
    ∧ (∀ x : Mode, LmsClient.get_mode name sent (.ok x) = (sent, .ok x))
    ∧ (LmsClient.get_artist name sent (.error e) =
        (sent ++ [e], .error (.op "Error get_artist")))
    ∧ (∀ x : Option String, LmsClient.get_artist name sent (.ok x) = (sent, .ok x))
    ∧ (LmsClient.get_title name sent (.error e) =
        (sent ++ [e], .error (.op "Error get_title")))
    ∧ (∀ x : Option String, LmsClient.get_title name sent (.ok x) = (sent, .ok x))
    ∧ (LmsClient.get_album name sent (.error e) =
        (sent ++ [e], .error (.op "Error get_album")))
    ∧ (∀ x : Option String, LmsClient.get_album name sent (.ok x) = (sent, .ok x))
    ∧ (LmsClient.play name sent (.error e) = (sent ++ [e], .error (.op "Error play")))
    ∧ (LmsClient.play name sent (.ok ()) = (sent, .ok ()))
    ∧ (LmsClient.stop name sent (.error e) = (sent ++ [e], .error (.op "Error stop")))
    ∧ (LmsClient.stop name sent (.ok ()) = (sent, .ok ()))
    ∧ (LmsClient.pause name sent (.error e) = (sent ++ [e], .error (.op "Error pause")))
    ∧ (LmsClient.pause name sent (.ok ()) = (sent, .ok ()))
    ∧ (LmsClient.play_pause name sent (.error e) =
        (sent ++ [e], .error (.op "Error play_pause")))
    ∧ (LmsClient.play_pause name sent (.ok ()) = (sent, .ok ()))
    ∧ (LmsClient.previous name sent (.error e) =
        (sent ++ [e], .error (.op "Error previous")))
    ∧ (LmsClient.previous name sent (.ok ()) = (sent, .ok ()))
    ∧ (LmsClient.next name sent (.error e) = (sent ++ [e], .error (.op "Error next")))
    ∧ (LmsClient.next name sent (.ok ()) = (sent, .ok ())) :=
  fun _ _ _ _ _ =>
    ⟨rfl, rfl, fun _ => rfl, rfl, fun _ => rfl, rfl, fun _ => rfl, rfl, fun _ => rfl,
     rfl, fun _ => rfl, rfl, fun _ => rfl, rfl, fun _ => rfl, rfl, fun _ => rfl,
     rfl, fun _ => rfl, rfl, fun _ => rfl, rfl, fun _ => rfl,
     rfl, rfl, rfl, rfl, rfl, rfl, rfl, rfl, rfl, rfl, rfl, rfl⟩

/-! ## Claim C2: the mode polling loop of src/mpris.rs. -/

/-- One iteration of poll_for_mode_changes: given the held last known
mode and the outcome of get_mode for this interval, return the new held
mode and whether a PropertiesChanged notification was emitted.  A fetch
error skips the iteration; a fetched mode that differs from the held one
(initially none, so any first mode differs) updates the held mode and
emits one notification. -/
def pollStep (last : Option Mode) (fetch : Except Err Mode) : Option Mode × Bool :=
  match fetch with
  | .error _ => (last, false)
  | .ok current =>
    if last ≠ some current then (some current, true) else (last, false)

/-- The polling loop of poll_for_mode_changes over a finite schedule of
fetch outcomes, returning the emission flag of every iteration in order
(the real loop runs forever; any finite prefix of its behaviour is an
instance of this fold). -/
def pollLoop : Option Mode → List (Except Err Mode) → List Bool
  | _, [] => []
  | last, fetch :: rest =>
    let step := pollStep last fetch
    step.2 :: pollLoop step.1 rest

/-- C2: an iteration emits a notification exactly when the fetch
succeeded with a mode different from the held one; an emitting iteration
updates the held mode to the fetched mode while a non-emitting one leaves
it unchanged; a fetch error skips the iteration without stopping the
loop; the first successful fetch always emits; and the polled sequence
Play, Play, Pause, Pause, Play emits exactly at indices 0, 2 and 4, three
notifications in total. -/
theorem poll_loop_emits_iff_changed :
    (∀ (last : Option Mode) (fetch : Except Err Mode),
      (pollStep last fetch).2 = true ↔ ∃ m, fetch = .ok m ∧ last ≠ some m)
  ∧ (∀ (last : Option Mode) (fetch : Except Err Mode),
      (pollStep last fetch).2 = true → ∃ m, fetch = .ok m ∧ (pollStep last fetch).1 = some m)
  ∧ (∀ (last : Option Mode) (fetch : Except Err Mode),
      (pollStep last fetch).2 = false → (pollStep last fetch).1 = last)
  ∧ (∀ (last : Option Mode) (e : Err) (rest : List (Except Err Mode)),
      pollLoop last (.error e :: rest) = false :: pollLoop last rest)
  ∧ (∀ m : Mode, (pollStep none (.ok m)).2 = true)
  ∧ (pollLoop none [.ok .Play, .ok .Play, .ok .Pause, .ok .Pause, .ok .Play] =
      [true, false, true, false, true])
  ∧ ((pollLoop none [.ok .Play, .ok .Play, .ok .Pause, .ok .Pause, .ok .Play]).count true
      = 3) := by
  refine ⟨?_, ?_, ?_, ?_, ?_, by decide, by decide⟩
  · intro last fetch
    cases fetch with
    | error e => simp [pollStep]
    | ok m =>
      by_cases h : last ≠ some m
      · simp [pollStep, h]
      · simp [pollStep, h]
  · intro last fetch h
    cases fetch with
    | error e => simp [pollStep] at h
    | ok m =>
      by_cases hne : last ≠ some m
      · exact ⟨m, rfl, by simp [pollStep, hne]⟩
      · simp [pollStep, hne] at h
  · intro last fetch h
    cases fetch with
    | error e => simp [pollStep]
    | ok m =>
      by_cases hne : last ≠ some m
      · simp [pollStep, hne] at h
      · simp [pollStep, hne]
  · intro last e rest
    simp [pollLoop, pollStep]
  · intro m
    simp [pollStep]

/-- Witness for C2: the conditional conjuncts of the claim applied at a
concrete iteration: a successful fetch of Play with no prior mode emits
and updates the held mode to Play. -/
theorem poll_loop_witness :
    ((pollStep none (.ok .Play)).2 = true)
  ∧ (∃ m, (.ok .Play : Except Err Mode) = .ok m ∧ (pollStep none (.ok .Play)).1 = some m)
  ∧ ((pollStep (some .Play) (.ok .Play)).2 = false ∧
      (pollStep (some .Play) (.ok .Play)).1 = some .Play) :=
  ⟨poll_loop_emits_iff_changed.1 none (.ok .Play) |>.mpr ⟨.Play, rfl, by simp⟩,
   poll_loop_emits_iff_changed.2.1 none (.ok .Play) (by decide),
   by decide,
   poll_loop_emits_iff_changed.2.2.1 (some .Play) (.ok .Play) (by decide)⟩

/-! ## Claim C10: the request builders of src/lms/request.rs. -/

/-- Embedding of the LmsRequest struct: the fixed method name and the
pair of target player name and token list. -/
structure LmsRequest where
  method : String
  params : String × List String
deriving Repr, DecidableEq

/-- Embedding of LmsRequest::new: the constant method and an empty token
list. -/
def LmsRequest.new (name : String) : LmsRequest :=
  { method := "slim.request", params := (name, []) }

/-- Embedding of LmsRequest::add_param: push one token. -/
def LmsRequest.add_param (r : LmsRequest) (param : String) : LmsRequest :=
  { r with params := (r.params.1, r.params.2 ++ [param]) }

/-- Embedding of LmsRequest::question: append the queried key and the
question mark token, and pair the request with the extraction key, the
attribute name prefixed by an underscore. -/
def LmsRequest.question (r : LmsRequest) (key : String) : LmsRequest × String :=
  ((r.add_param key).add_param "?", "_" ++ key)

/-- Embedding of LmsRequest::version. -/
def LmsRequest.version : LmsRequest × String :=
  (LmsRequest.new "").question "version"

/-- Embedding of LmsRequest::connected. -/
def LmsRequest.connected (name : String) : LmsRequest × String :=
  (LmsRequest.new name).question "connected"

/-- Embedding of LmsRequest::players: the one builder whose extraction
key is not underscore-prefixed. -/
def LmsRequest.players : LmsRequest × String :=
  (((LmsRequest.new "").add_param "players").add_param "0", "players_loop")

/-- Embedding of LmsRequest::player_count. -/
def LmsRequest.player_count : LmsRequest × String :=
  ((LmsRequest.new "").add_param "player").question "count"

/-- Embedding of LmsRequest::artist. -/
def LmsRequest.artist (name : String) : LmsRequest × String :=
  (LmsRequest.new name).question "artist"

/-- Embedding of LmsRequest::title. -/
def LmsRequest.title (name : String) : LmsRequest × String :=
  (LmsRequest.new name).question "title"

/-- Embedding of LmsRequest::album. -/
def LmsRequest.album (name : String) : LmsRequest × String :=
  (LmsRequest.new name).question "album"

/-- Embedding of LmsRequest::mode. -/
def LmsRequest.mode (name : String) : LmsRequest × String :=
  (LmsRequest.new name).question "mode"

/-- Embedding of LmsRequest::playlist. -/
def LmsRequest.playlist (name : String) : LmsRequest :=
  (LmsRequest.new name).add_param "playlist"

/-- Embedding of LmsRequest::shuffle. -/
def LmsRequest.shuffle (name : String) : LmsRequest × String :=
  (LmsRequest.playlist name).question "shuffle"

/-- Embedding of LmsRequest::index. -/
def LmsRequest.index (name : String) : LmsRequest × String :=
  (LmsRequest.playlist name).question "index"

/-- Embedding of LmsRequest::track_count; the queried attribute is
tracks. -/
def LmsRequest.track_count (name : String) : LmsRequest × String :=
  (LmsRequest.playlist name).question "tracks"

/-- Embedding of LmsRequest::play. -/
def LmsRequest.play (name : String) : LmsRequest :=
  (LmsRequest.new name).add_param "play"

/-- Embedding of LmsRequest::stop. -/
def LmsRequest.stop (name : String) : LmsRequest :=
  (LmsRequest.new name).add_param "stop"

/-- Embedding of LmsRequest::pause. -/
def LmsRequest.pause (name : String) : LmsRequest :=
  ((LmsRequest.new name).add_param "pause").add_param "1"

/-- Embedding of LmsRequest::play_pause. -/
def LmsRequest.play_pause (name : String) : LmsRequest :=
  (LmsRequest.new name).add_param "pause"

/-- Embedding of LmsRequest::previous. -/
def LmsRequest.previous (name : String) : LmsRequest :=
  ((LmsRequest.playlist name).add_param "index").add_param "-1"

/-- Embedding of LmsRequest::next. -/
def LmsRequest.next (name : String) : LmsRequest :=
  ((LmsRequest.playlist name).add_param "index").add_param "+1"

/-- C10: every request built by a builder carries the constant method
slim.request; every question-style builder yields a token list ending in
the queried attribute followed by the question mark, paired with the key
equal to an underscore followed by that attribute; players is the sole
exception, its key being players_loop with no underscore. -/
theorem request_builder_invariants :
    ∀ name : String,
      (LmsRequest.version.1.method = "slim.request"
        ∧ (LmsRequest.connected name).1.method = "slim.request"
        ∧ LmsRequest.players.1.method = "slim.request"
        ∧ LmsRequest.player_count.1.method = "slim.request"
        ∧ (LmsRequest.artist name).1.method = "slim.request"
        ∧ (LmsRequest.title name).1.method = "slim.request"
        ∧ (LmsRequest.album name).1.method = "slim.request"
        ∧ (LmsRequest.mode name).1.method = "slim.request"
        ∧ (LmsRequest.shuffle name).1.method = "slim.request"
        ∧ (LmsRequest.index name).1.method = "slim.request"
        ∧ (LmsRequest.track_count name).1.method = "slim.request"
        ∧ (LmsRequest.play name).method = "slim.request"
        ∧ (LmsRequest.stop name).method = "slim.request"
        ∧ (LmsRequest.pause name).method = "slim.request"
        ∧ (LmsRequest.play_pause name).method = "slim.request"
        ∧ (LmsRequest.previous name).method = "slim.request"
        ∧ (LmsRequest.next name).method = "slim.request")
    ∧ (LmsRequest.version.1.params.2 = [] ++ ["version", "?"]
        ∧ LmsRequest.version.2 = "_" ++ "version")
    ∧ ((LmsRequest.connected name).1.params.2 = [] ++ ["connected", "?"]
        ∧ (LmsRequest.connected name).2 = "_" ++ "connected")
    ∧ ((LmsRequest.artist name).1.params.2 = [] ++ ["artist", "?"]
        ∧ (LmsRequest.artist name).2 = "_" ++ "artist")
    ∧ ((LmsRequest.title name).1.params.2 = [] ++ ["title", "?"]
        ∧ (LmsRequest.title name).2 = "_" ++ "title")
    ∧ ((LmsRequest.album name).1.params.2 = [] ++ ["album", "?"]
        ∧ (LmsRequest.album name).2 = "_" ++ "album")
    ∧ ((LmsRequest.mode name).1.params.2 = [] ++ ["mode", "?"]
        ∧ (LmsRequest.mode name).2 = "_" ++ "mode")
    ∧ ((LmsRequest.shuffle name).1.params.2 = ["playlist"] ++ ["shuffle", "?"]
        ∧ (LmsRequest.shuffle name).2 = "_" ++ "shuffle")
    ∧ ((LmsRequest.index name).1.params.2 = ["playlist"] ++ ["index", "?"]
        ∧ (LmsRequest.index name).2 = "_" ++ "index")
    ∧ ((LmsRequest.track_count name).1.params.2 = ["playlist"] ++ ["tracks", "?"]
        ∧ (LmsRequest.track_count name).2 = "_" ++ "tracks")
    ∧ (LmsRequest.player_count.1.params.2 = ["player"] ++ ["count", "?"]
        ∧ LmsRequest.player_count.2 = "_" ++ "count")
    ∧ (LmsRequest.players.2 = "players_loop"
        ∧ LmsRequest.players.1.params.2 = ["players", "0"]) := by
  intro name
  refine ⟨⟨?_, ?_, ?_, ?_, ?_, ?_, ?_, ?_, ?_, ?_, ?_, ?_, ?_, ?_, ?_, ?_, ?_⟩,
    ?_, ?_, ?_, ?_, ?_, ?_, ?_, ?_, ?_, ?_, ?_⟩ <;> constructor <;> rfl

/-! ## Claim C9: the supervisor race while in the Running state.  The
supervisor loop itself is not present in the sources here (the main
module shipped is an earlier snapshot without it), so its behaviour is
modelled from the specification. -/

/-- Modelled from the spec: the three events raced by the Supervisor
while Running, whichever fires first ending the Running state: the
ErrorSignal channel yielding a value, the State Bridge task ending
unexpectedly, or the managed child process exiting with an optional exit
code. -/
inductive RaceEvent where
  | errorSignal (cause : Err)
  | bridgeEnded
  | childExited (code : Option Nat)
deriving Repr, DecidableEq

/-- Modelled from the spec: the failure reported by the Supervisor's
terminal result, determined by the first event of the race. -/
inductive SupervisorFailure where
  | clientError (cause : Err)
  | pollingExited
  | exitedWithCode (code : Nat)
  | exitedWithoutCode
deriving Repr, DecidableEq

/-- Modelled from the spec: the terminal result the Supervisor reports
for the race event that ended the Running state. -/
def runningResult : RaceEvent → SupervisorFailure
  | .errorSignal cause => .clientError cause
  | .bridgeEnded => .pollingExited
  | .childExited (some code) => .exitedWithCode code
  | .childExited none => .exitedWithoutCode

/-- Modelled from the spec: whether the managed child process is still
alive after the event that ended Running; it is dead exactly when that
event was its own exit. -/
def processAliveAfter : RaceEvent → Bool
  | .childExited _ => false
  | _ => true

/-- Modelled from the spec: what the Terminating step does: it requests
termination only if the managed process is still alive, and otherwise
does nothing. -/
inductive TerminateAction where
  | kill
  | noop
deriving Repr, DecidableEq

/-- Modelled from the spec: the Terminating transition of the
Supervisor. -/
def terminateStep (alive : Bool) : TerminateAction :=
  if alive then .kill else .noop

/-- C9: if, while Running, the managed child process exits with code 2
before any error signal and before the state bridge ends, the
Supervisor's terminal result reports exit code 2 and the subsequent
termination step is a no-op on the already dead process. -/
theorem supervisor_child_exit_race :
    runningResult (.childExited (some 2)) = .exitedWithCode 2
  ∧ processAliveAfter (.childExited (some 2)) = false
  ∧ terminateStep (processAliveAfter (.childExited (some 2))) = .noop :=
  ⟨rfl, rfl, rfl⟩
